import Mathlib

/-!
Verification of `src/serve.py`: a minimal no-cache static-file HTTP server.

The source program (15 lines of Python) is:

* line 5: `os.chdir(os.path.dirname(os.path.abspath(__file__)))`
* lines 7-12: `class NoCacheHandler(http.server.SimpleHTTPRequestHandler)`
  overriding `end_headers` to send three no-cache headers then delegate to
  the baseline `end_headers`
* line 14: `print("Serving at http://localhost:9091 (no-cache)")`
* line 15: `http.server.HTTPServer(('', 9091), NoCacheHandler).serve_forever()`

The baseline handler (`SimpleHTTPRequestHandler` and its base
`BaseHTTPRequestHandler`) is Python standard-library code, not part of this
repository; its behaviour is modelled from the specification where a claim
depends on it, with each such definition marked `Modelled from the spec:`.
-/

namespace Serve

/-- An HTTP header field: a field name and a field value. -/
structure Header where
  name : String
  value : String
deriving DecidableEq, Repr

/-- The first no-cache header sent by `NoCacheHandler.end_headers`
(src/serve.py line 9). -/
def cacheControlHeader : Header :=
  ⟨"Cache-Control", "no-store, no-cache, must-revalidate, max-age=0"⟩

/-- The second no-cache header sent by `NoCacheHandler.end_headers`
(src/serve.py line 10). -/
def pragmaHeader : Header := ⟨"Pragma", "no-cache"⟩

/-- The third no-cache header sent by `NoCacheHandler.end_headers`
(src/serve.py line 11). -/
def expiresHeader : Header := ⟨"Expires", "0"⟩

/-- The three no-cache headers, in the order the handler sends them. -/
def noCacheHeaders : List Header := [cacheControlHeader, pragmaHeader, expiresHeader]

/-- The per-response state of the request handler while it is producing the
header section of one response: the headers buffered but not yet written, the
headers already written to the client socket, and whether the header block has
been finalized (terminating blank line written). -/
structure HandlerState where
  headerBuffer : List Header
  sentHeaders : List Header
  finalized : Bool
deriving DecidableEq, Repr

/-- The handler state at the start of a response: nothing buffered, nothing
written. -/
def initState : HandlerState := ⟨[], [], false⟩

/-- Modelled from the spec: the baseline handler's `send_header` (Python
standard library, `BaseHTTPRequestHandler.send_header`), which the spec's
header-override step calls; it appends one header field to the buffered
header block of the current response. -/
def send_header (s : HandlerState) (n v : String) : HandlerState :=
  { s with headerBuffer := s.headerBuffer ++ [⟨n, v⟩] }

/-- Modelled from the spec: the baseline handler's `end_headers` (Python
standard library, `BaseHTTPRequestHandler.end_headers`), the point at which
the spec says "the response headers are finalized and sent"; it writes the
buffered header block to the client, empties the buffer, and marks the header
section finalized. -/
def SimpleHTTPRequestHandler.end_headers (s : HandlerState) : HandlerState :=
  { headerBuffer := [],
    sentHeaders := s.sentHeaders ++ s.headerBuffer,
    finalized := true }

/-- The override `NoCacheHandler.end_headers` (src/serve.py lines 8-12): send the three
no-cache headers, then delegate to the baseline `end_headers` via
`super().end_headers()`. -/
def NoCacheHandler.end_headers (s : HandlerState) : HandlerState :=
  SimpleHTTPRequestHandler.end_headers
    (send_header
      (send_header
        (send_header s "Cache-Control" "no-store, no-cache, must-revalidate, max-age=0")
        "Pragma" "no-cache")
      "Expires" "0")

/-- One baseline response production: the status code the baseline handler
selects, the header fields it sends via `send_header`, and the body bytes it
writes after the header block. -/
structure BaselineRun where
  status : Nat
  headers : List Header
  body : List Nat
deriving DecidableEq, Repr

/-- A finished HTTP response as seen by the client: status code, the header
fields written to the socket, and the body bytes. -/
structure Response where
  status : Nat
  headers : List Header
  body : List Nat
deriving DecidableEq, Repr

/-- Modelled from the spec: the baseline handler's response-emission
discipline (Python standard library, `BaseHTTPRequestHandler`): every
response path buffers its header fields with `send_header` and finalizes the
header block with exactly one call to `end_headers` before writing the body,
so the installed `end_headers` override is the single injection point no
response-producing path bypasses. `emit` runs one baseline response
production through a given `end_headers` implementation. -/
def emit (endHeadersImpl : HandlerState → HandlerState) (b : BaselineRun) : Response :=
  let buffered := b.headers.foldl (fun st h => send_header st h.name h.value) initState
  let finished := endHeadersImpl buffered
  { status := b.status, headers := finished.sentHeaders, body := b.body }

/-- An HTTP request: the method and the URL path, the latter represented by
its slash-separated components (so the URL path `/../../etc/passwd` is
`["..", "..", "etc", "passwd"]`). -/
structure Request where
  method : String
  path : List String
deriving DecidableEq, Repr

/-- The filesystem under the document root, as the baseline handler sees it:
a map from a root-relative component path to the bytes of the file there, or
`none` when no file exists at that path. Paths outside the document root are
not in its domain. -/
abbrev FS : Type := List String → Option (List Nat)

/-- Modelled from the spec: the path normalization inside the baseline
handler's `translate_path` (Python standard library,
`SimpleHTTPRequestHandler.translate_path`, via `posixpath.normpath` on the
absolute URL path) — the "path-traversal protections (must not allow escaping
the document root)" the spec delegates to. Processing the components left to
right: empty and `.` components are dropped, and `..` removes the previous
kept component; because the URL path is rooted at the document root, a `..`
with nothing before it is simply discarded, so normalization can never ascend
above the root. -/
def normComponents (ws : List String) : List String :=
  ws.foldl
    (fun acc w =>
      if w = "" ∨ w = "." then acc
      else if w = ".." then acc.dropLast
      else acc ++ [w])
    []

/-- Modelled from the spec: the baseline handler's `translate_path` (Python
standard library): normalize the URL path against the document root, then
keep only plain file/directory-name components (any residual `.`, `..` or
empty component is ignored), yielding the root-relative path that is looked
up on disk. -/
def translate_path (p : List String) : List String :=
  (normComponents p).filter (fun w => ¬(w = "" ∨ w = "." ∨ w = ".."))

/-- The `Content-Length` header the baseline handler sends for a body. -/
def contentLengthHeader (body : List Nat) : Header :=
  ⟨"Content-Length", toString body.length⟩

/-- Modelled from the spec: the baseline static-file handler
(`SimpleHTTPRequestHandler`), the "baseline static-file request handler" the
spec delegates "path resolution, file reads, MIME-type inference,
directory-index generation, and standard status-code selection" to. It
resolves the request path under the document root via `translate_path`;
when a file exists there it produces a 200 response with that file's exact
bytes, otherwise the standard 404 error response. -/
def baselineRun (fs : FS) (req : Request) : BaselineRun :=
  match fs (translate_path req.path) with
  | some bytes =>
      { status := 200,
        headers := [contentLengthHeader bytes],
        body := bytes }
  | none =>
      { status := 404,
        headers := [⟨"Content-Type", "text/html;charset=utf-8"⟩],
        body := [] }

/-- Handling one request with `NoCacheHandler` installed (src/serve.py
line 15 passes `NoCacheHandler` to the server): the baseline production is
emitted through the overridden `end_headers`. -/
def handle (fs : FS) (req : Request) : Response :=
  emit NoCacheHandler.end_headers (baselineRun fs req)

/-- Handling one request with the unmodified baseline handler: the same
baseline production emitted through the baseline `end_headers`. -/
def baselineHandle (fs : FS) (req : Request) : Response :=
  emit SimpleHTTPRequestHandler.end_headers (baselineRun fs req)

/-- Modelled from the spec: `HTTPServer.serve_forever` (src/serve.py
line 15): an unbounded serve loop that handles each incoming request in
turn with the installed handler; the handler keeps no state that survives a
request, so the loop is a map over the request sequence. -/
def serve_forever (fs : FS) (reqs : List Request) : List Response :=
  reqs.map (handle fs)

/-- One observable top-level effect of the script. -/
inductive Effect where
  | chdir (dir : List String)
  | printLine (line : String)
  | bind (host : String) (port : Nat)
  | serveForever
deriving DecidableEq, Repr

/-- Whether an effect is a working-directory change. -/
def Effect.isChdir : Effect → Bool
  | .chdir _ => true
  | _ => false

/-- Whether an effect writes a line to standard output. -/
def Effect.isPrintLine : Effect → Bool
  | .printLine _ => true
  | _ => false

/-- Whether an effect is the attempt to bind the listening socket. -/
def Effect.isBind : Effect → Bool
  | .bind _ _ => true
  | _ => false

/-- The function `os.path.dirname` on an absolute path given by its components: drop the
final (file-name) component. -/
def dirname (p : List String) : List String := p.dropLast

/-- The exact startup line printed at src/serve.py line 14. -/
def servingMessage : String := "Serving at http://localhost:9091 (no-cache)"

/-- The top-level effect trace of src/serve.py, in source order:
line 5 `os.chdir(os.path.dirname(os.path.abspath(__file__)))`,
line 14 `print(...)`, line 15 `HTTPServer(('', 9091), NoCacheHandler)`
then `.serve_forever()`. `entryFileAbs` is the absolute path of the
script's own entry file (`os.path.abspath(__file__)`) as components; in
Python `('', 9091)` binds the wildcard (all-interfaces) address. The script
reads neither `argv` nor `env`: they are parameters only to state that the
trace does not depend on them. -/
def mainTrace (entryFileAbs : List String) (_argv : List String)
    (_env : List (String × String)) : List Effect :=
  [Effect.chdir (dirname entryFileAbs),
   Effect.printLine servingMessage,
   Effect.bind "" 9091,
   Effect.serveForever]

/-- The effects the process has performed when the bind attempt raises: in a
sequential script, everything strictly before the first bind effect. -/
def effectsBeforeFirstBind (t : List Effect) : List Effect :=
  t.takeWhile (fun e => !e.isBind)

/-- Stand-in bytes for the content of the entry file `serve.py`, which lies
in the document root (the document root is the directory containing the
entry point); the concrete value is irrelevant. -/
def serveBytes : List Nat := [104, 105]

/-- A concrete document-root filesystem containing exactly the entry file
`serve.py` — every document root of this server contains at least that file. -/
def rootFS : FS := fun p => if p = ["serve.py"] then some serveBytes else none

/-- A concrete filesystem with no files at all. -/
def emptyFS : FS := fun _ => none

/-- A concrete request whose URL path `/../serve.py` contains a traversal
sequence. -/
def traversalReq : Request := ⟨"GET", ["..", "serve.py"]⟩

/-- A concrete request for the spec's example traversal path
`/../../etc/passwd`. -/
def etcPasswdReq : Request := ⟨"GET", ["..", "..", "etc", "passwd"]⟩

/-- A concrete request for a path with no corresponding file. -/
def missingReq : Request := ⟨"GET", ["no-such-file.txt"]⟩

/-! ## Helper lemmas -/

/-- Folding `send_header` over a list of header fields appends them, in
order, to the header buffer. -/
lemma foldl_send_header (hs : List Header) (s : HandlerState) :
    hs.foldl (fun st h => send_header st h.name h.value) s =
      { s with headerBuffer := s.headerBuffer ++ hs } := by
  induction hs generalizing s with
  | nil => simp
  | cons h t ih =>
      have he : (⟨h.name, h.value⟩ : Header) = h := rfl
      rw [List.foldl_cons, ih]
      simp [send_header, he]

/-- Emission never changes the baseline's status code. -/
lemma emit_status (e : HandlerState → HandlerState) (b : BaselineRun) :
    (emit e b).status = b.status := rfl

/-- Emission never changes the baseline's body bytes. -/
lemma emit_body (e : HandlerState → HandlerState) (b : BaselineRun) :
    (emit e b).body = b.body := rfl

/-- Emitting through the baseline `end_headers` writes exactly the baseline's
buffered header fields. -/
lemma emit_headers_baseline (b : BaselineRun) :
    (emit SimpleHTTPRequestHandler.end_headers b).headers = b.headers := by
  unfold emit
  rw [foldl_send_header]
  simp [SimpleHTTPRequestHandler.end_headers, initState]

/-- Emitting through the overridden `end_headers` writes the baseline's
buffered header fields followed by the three no-cache headers. -/
lemma emit_headers_noCache (b : BaselineRun) :
    (emit NoCacheHandler.end_headers b).headers = b.headers ++ noCacheHeaders := by
  unfold emit
  rw [foldl_send_header]
  simp [NoCacheHandler.end_headers, SimpleHTTPRequestHandler.end_headers,
    send_header, initState, noCacheHeaders, cacheControlHeader,
    pragmaHeader, expiresHeader]

/-- Every component of a translated path is a plain name: not empty, not `.`,
not `..`. -/
lemma mem_translate_path {w : String} {p : List String}
    (hw : w ∈ translate_path p) : ¬(w = "" ∨ w = "." ∨ w = "..") := by
  have h := List.of_mem_filter hw
  intro hc
  simp only [decide_eq_true_eq] at h
  exact h hc

/-! ## Claim theorems -/

/-- C1: every response emitted with `NoCacheHandler` installed — whatever the
status code, header fields and body the baseline produced, hence for every
request against every filesystem — carries all three no-cache headers; every
response production goes through the single `emit` injection point. -/
theorem noCache_headers_universal :
    (∀ b : BaselineRun,
      cacheControlHeader ∈ (emit NoCacheHandler.end_headers b).headers ∧
      pragmaHeader ∈ (emit NoCacheHandler.end_headers b).headers ∧
      expiresHeader ∈ (emit NoCacheHandler.end_headers b).headers) ∧
    (∀ (fs : FS) (req : Request),
      cacheControlHeader ∈ (handle fs req).headers ∧
      pragmaHeader ∈ (handle fs req).headers ∧
      expiresHeader ∈ (handle fs req).headers) := by
  constructor
  · intro b
    simp [emit_headers_noCache, noCacheHeaders]
  · intro fs req
    simp [handle, emit_headers_noCache, noCacheHeaders]

/-- C2: for every response, the three no-cache headers are appended as the
last step before the header block is finalized: the wrapped handler's header
block is exactly what the baseline handler would have written followed by
the three no-cache headers. -/
theorem noCache_headers_last :
    ∀ b : BaselineRun,
      (emit NoCacheHandler.end_headers b).headers =
        (emit SimpleHTTPRequestHandler.end_headers b).headers ++ noCacheHeaders := by
  intro b
  rw [emit_headers_noCache, emit_headers_baseline]

/-- C3: the wrapper's response has exactly the baseline handler's status code
and body bytes for the same request and filesystem state; only the header set
changes, by appending the three no-cache headers. -/
theorem wrapper_frame_effect :
    ∀ (fs : FS) (req : Request),
      (handle fs req).status = (baselineHandle fs req).status ∧
      (handle fs req).body = (baselineHandle fs req).body ∧
      (handle fs req).headers = (baselineHandle fs req).headers ++ noCacheHeaders := by
  intro fs req
  refine ⟨rfl, rfl, ?_⟩
  rw [handle, baselineHandle, emit_headers_noCache, emit_headers_baseline]

/-- C4: a request whose path resolves to no file under the document root gets
a 4xx response (the standard 404) that still carries all three no-cache
headers, and its handling is contained in its own position of the serve
loop: the surrounding requests' responses are exactly what they would be
anyway, and the loop keeps running. -/
theorem notFound_is_contained_error (fs : FS) (req : Request)
    (pre post : List Request) (h : fs (translate_path req.path) = none) :
    (handle fs req).status = 404 ∧
    400 ≤ (handle fs req).status ∧ (handle fs req).status < 500 ∧
    cacheControlHeader ∈ (handle fs req).headers ∧
    pragmaHeader ∈ (handle fs req).headers ∧
    expiresHeader ∈ (handle fs req).headers ∧
    serve_forever fs (pre ++ req :: post) =
      serve_forever fs pre ++ handle fs req :: serve_forever fs post := by
  have hs : (handle fs req).status = 404 := by
    simp [handle, emit_status, baselineRun, h]
  refine ⟨hs, by rw [hs]; decide, by rw [hs]; decide, ?_, ?_, ?_, ?_⟩
  · simp [handle, emit_headers_noCache, noCacheHeaders]
  · simp [handle, emit_headers_noCache, noCacheHeaders]
  · simp [handle, emit_headers_noCache, noCacheHeaders]
  · simp [serve_forever]

/-- Witness for C4 at a concrete input: the empty filesystem has no file for
`/no-such-file.txt`, and the theorem's conclusion holds there. -/
theorem notFound_is_contained_error_witness :
    emptyFS (translate_path missingReq.path) = none ∧
    ((handle emptyFS missingReq).status = 404 ∧
     400 ≤ (handle emptyFS missingReq).status ∧
     (handle emptyFS missingReq).status < 500 ∧
     cacheControlHeader ∈ (handle emptyFS missingReq).headers ∧
     pragmaHeader ∈ (handle emptyFS missingReq).headers ∧
     expiresHeader ∈ (handle emptyFS missingReq).headers ∧
     serve_forever emptyFS ([etcPasswdReq] ++ missingReq :: [traversalReq]) =
       serve_forever emptyFS [etcPasswdReq] ++
         handle emptyFS missingReq :: serve_forever emptyFS [traversalReq]) :=
  ⟨rfl, notFound_is_contained_error emptyFS missingReq [etcPasswdReq] [traversalReq] rfl⟩

/-- C5 counterexample: the claim says a request whose path contains traversal
sequences yields an error status, but the request `/../serve.py` against a
document root containing `serve.py` (every document root of this server
contains its own entry file) is answered with status 200 and the in-root
file's content: traversal components are stripped, not rejected. -/
theorem traversal_not_always_error :
    ".." ∈ traversalReq.path ∧
    (handle rootFS traversalReq).status = 200 ∧
    ¬(400 ≤ (handle rootFS traversalReq).status) ∧
    (handle rootFS traversalReq).body = serveBytes := by
  refine ⟨by decide, ?_, ?_, ?_⟩
  · rfl
  · decide
  · rfl

/-- C5 amended: a request whose path contains a traversal sequence never
receives content from outside the document root: its path is resolved to a
root-relative path with no remaining traversal component, and the response is
either the standard 404 error (when no file exists at that in-root path) or a
200 whose body is the in-root file's bytes at that path. -/
theorem traversal_containment (fs : FS) (req : Request)
    (_h : ".." ∈ req.path) :
    ".." ∉ translate_path req.path ∧
    "." ∉ translate_path req.path ∧
    "" ∉ translate_path req.path ∧
    ((fs (translate_path req.path) = none ∧ (handle fs req).status = 404) ∨
     (∃ bytes, fs (translate_path req.path) = some bytes ∧
       (handle fs req).status = 200 ∧ (handle fs req).body = bytes)) := by
  refine ⟨?_, ?_, ?_, ?_⟩
  · intro hw
    exact mem_translate_path hw (Or.inr (Or.inr rfl))
  · intro hw
    exact mem_translate_path hw (Or.inr (Or.inl rfl))
  · intro hw
    exact mem_translate_path hw (Or.inl rfl)
  · cases hfs : fs (translate_path req.path) with
    | none =>
        left
        exact ⟨rfl, by simp [handle, emit_status, baselineRun, hfs]⟩
    | some bytes =>
        right
        exact ⟨bytes, rfl, by simp [handle, emit_status, baselineRun, hfs],
          by simp [handle, emit_body, baselineRun, hfs]⟩

/-- Witness for the amended C5 at the spec's own example: `/../../etc/passwd`
contains traversal components, and against a root holding only `serve.py`
the resolved in-root path `etc/passwd` has no file, giving the 404 branch. -/
theorem traversal_containment_witness :
    ".." ∈ etcPasswdReq.path ∧
    (".." ∉ translate_path etcPasswdReq.path ∧
     "." ∉ translate_path etcPasswdReq.path ∧
     "" ∉ translate_path etcPasswdReq.path ∧
     ((rootFS (translate_path etcPasswdReq.path) = none ∧
       (handle rootFS etcPasswdReq).status = 404) ∨
      (∃ bytes, rootFS (translate_path etcPasswdReq.path) = some bytes ∧
        (handle rootFS etcPasswdReq).status = 200 ∧
        (handle rootFS etcPasswdReq).body = bytes))) :=
  ⟨by decide, traversal_containment rootFS etcPasswdReq (by decide)⟩

/-- C6: the startup trace changes the working directory exactly once, as its
very first effect, to the directory containing the entry file (dropping the
file-name component of the entry file's absolute path), before the bind
effect; no later effect of the trace is a chdir. -/
theorem docRoot_fixed_at_startup :
    ∀ (entry argv : List String) (env : List (String × String)),
      (mainTrace entry argv env).countP Effect.isChdir = 1 ∧
      (mainTrace entry argv env).head? = some (Effect.chdir (dirname entry)) ∧
      Effect.bind "" 9091 ∈ (mainTrace entry argv env).tail ∧
      ∀ e ∈ (mainTrace entry argv env).tail, e.isChdir = false := by
  intro entry argv env
  refine ⟨?_, rfl, ?_, ?_⟩
  · simp [mainTrace, List.countP_cons, Effect.isChdir]
  · simp [mainTrace]
  · intro e he
    simp only [mainTrace, List.tail_cons] at he
    fin_cases he <;> rfl

/-- C7: the startup trace contains exactly one print effect, it writes the
exact line `Serving at http://localhost:9091 (no-cache)`, and it occurs
strictly before the serve-forever effect that begins accepting requests. -/
theorem startup_message_once :
    ∀ (entry argv : List String) (env : List (String × String)),
      (mainTrace entry argv env).countP Effect.isPrintLine = 1 ∧
      Effect.printLine "Serving at http://localhost:9091 (no-cache)" ∈
        mainTrace entry argv env ∧
      (mainTrace entry argv env)[1]? =
        some (Effect.printLine "Serving at http://localhost:9091 (no-cache)") ∧
      (mainTrace entry argv env)[3]? = some Effect.serveForever ∧ 1 < 3 := by
  intro entry argv env
  refine ⟨?_, ?_, rfl, rfl, by decide⟩
  · simp [mainTrace, List.countP_cons, Effect.isPrintLine]
  · simp [mainTrace, servingMessage]

/-- C8: the startup trace does not depend on command-line arguments or the
environment; it binds the wildcard (all-interfaces) host at the fixed port
9091; its final effect is the serve loop, and the serve loop handles every
incoming request, however many arrive, producing one response per request. -/
theorem fixed_port_no_config :
    ∀ (entry argv argv2 : List String) (env env2 : List (String × String)),
      mainTrace entry argv env = mainTrace entry argv2 env2 ∧
      Effect.bind "" 9091 ∈ mainTrace entry argv env ∧
      (mainTrace entry argv env).getLast? = some Effect.serveForever ∧
      ∀ (fs : FS) (reqs : List Request),
        (serve_forever fs reqs).length = reqs.length := by
  intro entry argv argv2 env env2
  refine ⟨rfl, ?_, rfl, ?_⟩
  · simp [mainTrace]
  · intro fs reqs
    simp [serve_forever]

/-- C9: handling a request mutates no state that survives it: the serve loop
is a map of a fixed per-request function over the request sequence, so the
same GET request issued twice in succession against the same filesystem
state yields the very same response — identical status, header values and
body bytes — in both positions. -/
theorem repeat_request_identical_responses :
    ∀ (fs : FS) (r : Request) (pre post : List Request),
      serve_forever fs (pre ++ r :: r :: post) =
        serve_forever fs pre ++ handle fs r :: handle fs r :: serve_forever fs post ∧
      (serve_forever fs (pre ++ r :: r :: post))[pre.length]? = some (handle fs r) ∧
      (serve_forever fs (pre ++ r :: r :: post))[pre.length + 1]? =
        some (handle fs r) := by
  intro fs r pre post
  have h1 : serve_forever fs (pre ++ r :: r :: post) =
      serve_forever fs pre ++ handle fs r :: handle fs r :: serve_forever fs post := by
    simp [serve_forever]
  have hlen : (serve_forever fs pre).length = pre.length := by
    simp [serve_forever]
  refine ⟨h1, ?_, ?_⟩
  · rw [h1, List.getElem?_append_right (by rw [hlen])]
    simp [hlen]
  · rw [h1, List.getElem?_append_right (by rw [hlen]; exact Nat.le_succ _)]
    simp [hlen]

/-- C10: in the startup trace the print of the serving message occurs
strictly before the first bind effect: the effects performed before the bind
attempt are exactly the chdir and the print, so the message is already on
standard output when a bind failure terminates the process. -/
theorem message_printed_before_bind :
    ∀ (entry argv : List String) (env : List (String × String)),
      effectsBeforeFirstBind (mainTrace entry argv env) =
        [Effect.chdir (dirname entry),
         Effect.printLine "Serving at http://localhost:9091 (no-cache)"] ∧
      Effect.printLine "Serving at http://localhost:9091 (no-cache)" ∈
        effectsBeforeFirstBind (mainTrace entry argv env) := by
  intro entry argv env
  refine ⟨rfl, ?_⟩
  simp [effectsBeforeFirstBind, mainTrace, servingMessage, Effect.isBind,
    List.takeWhile]

end Serve
